import Mathlib

/-!
Verification development for the LinuxUPC host-computer tool.

The repository is a PyQt desktop application whose core is a transport
abstraction over four buses (UART, RS485, CAN, I2C) plus a background
polling receiver.  This file gives a shallow embedding of that core:

* each Python communication class (`src/communication/*.py`) becomes a Lean
  structure with executable operations; calls into the underlying OS
  libraries (pyserial, python-can, smbus) are modelled by explicit outcome
  parameters, and every side effect on the underlying handle is recorded in
  an explicit trace of `Act` actions;
* exceptions become an `Except CommError` result; the Python object state
  after the call is always returned alongside, since a raising method still
  leaves its mutated `self` behind;
* the `CommunicationWorker` receive loop and the `MainWindow`
  disconnect/error-handling slots of `src/main_app.py` are embedded as
  trace-processing functions, plus a small-step interleaving machine for
  the worker/stop race.
-/

/-- Error taxonomy raised by the communication classes: Python
`ConnectionError`, `TimeoutError`, `IOError`, `TypeError`. -/
inductive CommError
  | connectionError (msg : String)
  | timeoutError (msg : String)
  | ioError (msg : String)
  | typeError (msg : String)
  deriving DecidableEq

/-- One observable action performed on an underlying OS handle.  Every
operation of the embedded classes reports the list of actions it performed,
so that claims about "no I/O" or "a single write" are statements about
these traces. -/
inductive Act
  | openSerial
  | closeSerial
  | serialWrite (bytes : List Nat)
  | serialRead (n : Nat)
  | serialReadline
  | serialFlush
  | openCanBus
  | shutdownCanBus
  | canSend (arbitrationId : Nat) (bytes : List Nat) (extended : Bool)
  | canRecv
  | openSmbus (busNumber : Int)
  | closeSmbus
  | smbusReadByte (addr : Int)
  | smbusWriteByte (addr : Int) (b : Nat)
  | smbusWriteBlock (addr : Int) (reg : Nat) (bytes : List Nat)
  | smbusReadBlock (addr : Int) (reg : Nat) (n : Nat)
  deriving DecidableEq

/-- The bytes carried by one action, when it is a write. -/
def Act.writtenBytes : Act → List Nat
  | .serialWrite bs => bs
  | .canSend _ bs _ => bs
  | .smbusWriteByte _ b => [b]
  | .smbusWriteBlock _ _ bs => bs
  | _ => []

/-- Whether an action is a write on the underlying handle. -/
def Act.isWrite : Act → Bool
  | .serialWrite _ => true
  | .canSend _ _ _ => true
  | .smbusWriteByte _ _ => true
  | .smbusWriteBlock _ _ _ => true
  | _ => false

/-- Whether an action opens the underlying OS resource. -/
def Act.isOpen : Act → Bool
  | .openSerial => true
  | .openCanBus => true
  | .openSmbus _ => true
  | _ => false

/-- All bytes written across a trace, in order. -/
def writtenBytes (l : List Act) : List Nat :=
  (l.map Act.writtenBytes).flatten

/-- Number of write actions in a trace. -/
def writeCount (l : List Act) : Nat :=
  (l.filter Act.isWrite).length

/-- Number of opens of the underlying OS resource in a trace. -/
def openCount (l : List Act) : Nat :=
  (l.filter Act.isOpen).length

/-- Result of one method call of an embedded class: the Python return value
or raised exception, the object state after the call, and the I/O actions
performed on the underlying handle during the call. -/
structure Step (σ : Type) (α : Type) where
  result : Except CommError α
  state : σ
  io : List Act

instance {ε α : Type} [DecidableEq ε] [DecidableEq α] :
    DecidableEq (Except ε α) :=
  fun x y =>
    match x, y with
    | .ok a, .ok b =>
      if h : a = b then .isTrue (by rw [h])
      else .isFalse (fun hh => h (Except.ok.inj hh))
    | .error a, .error b =>
      if h : a = b then .isTrue (by rw [h])
      else .isFalse (fun hh => h (Except.error.inj hh))
    | .ok _, .error _ => .isFalse (fun hh => Except.noConfusion hh)
    | .error _, .ok _ => .isFalse (fun hh => Except.noConfusion hh)

instance {σ α : Type} [DecidableEq σ] [DecidableEq α] :
    DecidableEq (Step σ α) :=
  fun s t =>
    if h1 : s.result = t.result then
      if h2 : s.state = t.state then
        if h3 : s.io = t.io then
          .isTrue (by cases s; cases t; simp_all)
        else .isFalse (fun h => h3 (congrArg Step.io h))
      else .isFalse (fun h => h2 (congrArg Step.state h))
    else .isFalse (fun h => h1 (congrArg Step.result h))

/-- UTF-8 encoding of one character (Python `str.encode` on one code
point). -/
def utf8EncodeChar (c : Char) : List Nat :=
  let n := c.toNat
  if n < 0x80 then [n]
  else if n < 0x800 then [0xC0 + n / 64, 0x80 + n % 64]
  else if n < 0x10000 then [0xE0 + n / 4096, 0x80 + n / 64 % 64, 0x80 + n % 64]
  else [0xF0 + n / 262144, 0x80 + n / 4096 % 64, 0x80 + n / 64 % 64, 0x80 + n % 64]

/-- Python `data.encode('utf-8')` as a byte list. -/
def utf8Encode (s : String) : List Nat :=
  (s.data.map utf8EncodeChar).flatten

/-- Worker for `utf8DecodeIgnore`; the fuel is the length of the byte
list, so the structural recursion is obvious and every recursive call
consumes at least one byte.  Valid UTF-8 sequences are decoded, all other
bytes are skipped, matching `bytes.decode('utf-8', errors='ignore')`. -/
def utf8DecGo : Nat → List Nat → List Char
  | 0, _ => []
  | _, [] => []
  | fuel + 1, b :: rest =>
    if b < 0x80 then
      Char.ofNat b :: utf8DecGo fuel rest
    else if 0xC2 ≤ b ∧ b ≤ 0xDF then
      match rest with
      | b1 :: rest1 =>
        if 0x80 ≤ b1 ∧ b1 ≤ 0xBF then
          Char.ofNat ((b - 0xC0) * 64 + (b1 - 0x80)) :: utf8DecGo fuel rest1
        else utf8DecGo fuel rest
      | [] => []
    else if 0xE0 ≤ b ∧ b ≤ 0xEF then
      match rest with
      | b1 :: b2 :: rest2 =>
        if (0x80 ≤ b1 ∧ b1 ≤ 0xBF) ∧ (0x80 ≤ b2 ∧ b2 ≤ 0xBF) then
          Char.ofNat ((b - 0xE0) * 4096 + (b1 - 0x80) * 64 + (b2 - 0x80)) ::
            utf8DecGo fuel rest2
        else utf8DecGo fuel rest
      | _ => []
    else if 0xF0 ≤ b ∧ b ≤ 0xF4 then
      match rest with
      | b1 :: b2 :: b3 :: rest3 =>
        if (0x80 ≤ b1 ∧ b1 ≤ 0xBF) ∧ (0x80 ≤ b2 ∧ b2 ≤ 0xBF) ∧
            (0x80 ≤ b3 ∧ b3 ≤ 0xBF) then
          Char.ofNat ((b - 0xF0) * 262144 + (b1 - 0x80) * 4096 +
              (b2 - 0x80) * 64 + (b3 - 0x80)) :: utf8DecGo fuel rest3
        else utf8DecGo fuel rest
      | _ => []
    else
      utf8DecGo fuel rest

/-- Python `bytes.decode('utf-8', errors='ignore')`. -/
def utf8DecodeIgnore (l : List Nat) : String :=
  ⟨utf8DecGo l.length l⟩

/-- Python whitespace stripped by `str.strip()` (ASCII part, which is all
that can come out of the byte-oriented transports here). -/
def isPySpace (c : Char) : Bool :=
  c = ' ' ∨ c = '\t' ∨ c = '\n' ∨ c = '\r' ∨ c = '\x0b' ∨ c = '\x0c'

/-- Python `str.strip()`. -/
def pyStrip (s : String) : String :=
  ⟨((s.data.dropWhile isPySpace).reverse.dropWhile isPySpace).reverse⟩

/-! ## UART (`src/communication/uart_comm.py`) -/

/-- The pyserial `Serial` object as seen by the wrapper: its `is_open`
flag and the two directions of its byte stream (`rxBuf` holds bytes the
peer has made available to read, `txBuf` the bytes written so far). -/
structure SerialPort where
  is_open : Bool
  rxBuf : List Nat
  txBuf : List Nat
  deriving DecidableEq

/-- `serial_conn.write(bs)`. -/
def SerialPort.write (c : SerialPort) (bs : List Nat) : SerialPort :=
  { c with txBuf := c.txBuf ++ bs }

/-- `serial_conn.read(n)`: up to `n` bytes; on timeout whatever was
available. -/
def SerialPort.read (c : SerialPort) (n : Nat) : List Nat × SerialPort :=
  (c.rxBuf.take n, { c with rxBuf := c.rxBuf.drop n })

/-- `serial_conn.readline()`: bytes up to and including the first newline,
or on timeout everything available. -/
def SerialPort.readline (c : SerialPort) : List Nat × SerialPort :=
  match c.rxBuf.findIdx? (fun b => b = 10) with
  | some i => (c.rxBuf.take (i + 1), { c with rxBuf := c.rxBuf.drop (i + 1) })
  | none => (c.rxBuf, { c with rxBuf := [] })

/-- State of `UARTCommunication` (`__init__` fields). -/
structure UARTCommunication where
  port : String
  baudrate : Nat
  timeout : Nat
  serial_conn : Option SerialPort
  deriving DecidableEq

/-- `UARTCommunication.__init__` (the `timeout=1` default is passed
explicitly). -/
def UARTCommunication.init (port : String) (baudrate : Nat) (timeout : Nat) :
    UARTCommunication :=
  { port := port, baudrate := baudrate, timeout := timeout, serial_conn := none }

/-- `is_connected`: `self.serial_conn and self.serial_conn.is_open`. -/
def UARTCommunication.is_connected (u : UARTCommunication) : Bool :=
  match u.serial_conn with
  | some c => c.is_open
  | none => false

/-- Outcome of the `serial.Serial(...)` constructor, decided by the
environment: a fresh open port (with whatever bytes the peer will offer),
or a `SerialException`. -/
inductive SerialOpenOutcome
  | opened (rx : List Nat)
  | failed (msg : String)
  deriving DecidableEq

/-- `UARTCommunication.connect`. -/
def UARTCommunication.connect (u : UARTCommunication)
    (outcome : SerialOpenOutcome) : Step UARTCommunication Unit :=
  if u.is_connected then
    ⟨.ok (), u, []⟩
  else
    match outcome with
    | .opened rx =>
      ⟨.ok (), { u with serial_conn := some ⟨true, rx, []⟩ }, [.openSerial]⟩
    | .failed msg =>
      ⟨.error (.connectionError ("Failed to open port " ++ u.port ++ ": " ++ msg)),
        u, []⟩

/-- `UARTCommunication.disconnect`. -/
def UARTCommunication.disconnect (u : UARTCommunication) :
    UARTCommunication × List Act :=
  match u.serial_conn with
  | some c =>
    if c.is_open then ({ u with serial_conn := none }, [.closeSerial])
    else (u, [])
  | none => (u, [])

/-- `UARTCommunication.send_data`.  `timesOut` says whether the underlying
`write` raises `SerialTimeoutException`. -/
def UARTCommunication.send_data (u : UARTCommunication) (data : String)
    (timesOut : Bool) : Step UARTCommunication Unit :=
  match u.serial_conn with
  | none => ⟨.error (.connectionError "UART not connected."), u, []⟩
  | some c =>
    if ¬ c.is_open then
      ⟨.error (.connectionError "UART not connected."), u, []⟩
    else if timesOut then
      ⟨.error (.timeoutError "UART send timeout"), u, []⟩
    else
      ⟨.ok (), { u with serial_conn := some (c.write (utf8Encode data)) },
        [.serialWrite (utf8Encode data)]⟩

/-- `UARTCommunication.receive_data`.  `num_bytes` is the optional byte
count; Python tests it for truthiness (`if num_bytes:`), so `some 0`
behaves like `none`. -/
def UARTCommunication.receive_data (u : UARTCommunication)
    (num_bytes : Option Nat) : Step UARTCommunication String :=
  match u.serial_conn with
  | none => ⟨.error (.connectionError "UART not connected."), u, []⟩
  | some c =>
    if ¬ c.is_open then
      ⟨.error (.connectionError "UART not connected."), u, []⟩
    else
      match num_bytes with
      | some (n + 1) =>
        let r := c.read (n + 1)
        ⟨.ok (pyStrip (utf8DecodeIgnore r.1)),
          { u with serial_conn := some r.2 }, [.serialRead (n + 1)]⟩
      | _ =>
        let r := c.readline
        ⟨.ok (pyStrip (utf8DecodeIgnore r.1)),
          { u with serial_conn := some r.2 }, [.serialReadline]⟩

/-! ## RS485 (`src/communication/rs485_comm.py`) -/

/-- State of `RS485Communication`; the class is software-identical to UART
except that `send_data` also calls `flush()` and `receive_data` takes no
byte count. -/
structure RS485Communication where
  port : String
  baudrate : Nat
  timeout : Nat
  serial_conn : Option SerialPort
  deriving DecidableEq

/-- `RS485Communication.__init__`. -/
def RS485Communication.init (port : String) (baudrate : Nat) (timeout : Nat) :
    RS485Communication :=
  { port := port, baudrate := baudrate, timeout := timeout, serial_conn := none }

/-- `is_connected`: `self.serial_conn and self.serial_conn.is_open`. -/
def RS485Communication.is_connected (r : RS485Communication) : Bool :=
  match r.serial_conn with
  | some c => c.is_open
  | none => false

/-- `RS485Communication.connect`. -/
def RS485Communication.connect (r : RS485Communication)
    (outcome : SerialOpenOutcome) : Step RS485Communication Unit :=
  if r.is_connected then
    ⟨.ok (), r, []⟩
  else
    match outcome with
    | .opened rx =>
      ⟨.ok (), { r with serial_conn := some ⟨true, rx, []⟩ }, [.openSerial]⟩
    | .failed msg =>
      ⟨.error (.connectionError
          ("Failed to open RS485 port " ++ r.port ++ ": " ++ msg)), r, []⟩

/-- `RS485Communication.disconnect`. -/
def RS485Communication.disconnect (r : RS485Communication) :
    RS485Communication × List Act :=
  match r.serial_conn with
  | some c =>
    if c.is_open then ({ r with serial_conn := none }, [.closeSerial])
    else (r, [])
  | none => (r, [])

/-- `RS485Communication.send_data`: write then `flush()`. -/
def RS485Communication.send_data (r : RS485Communication) (data : String)
    (timesOut : Bool) : Step RS485Communication Unit :=
  match r.serial_conn with
  | none => ⟨.error (.connectionError "RS485 not connected."), r, []⟩
  | some c =>
    if ¬ c.is_open then
      ⟨.error (.connectionError "RS485 not connected."), r, []⟩
    else if timesOut then
      ⟨.error (.timeoutError "RS485 send timeout"), r, []⟩
    else
      ⟨.ok (), { r with serial_conn := some (c.write (utf8Encode data)) },
        [.serialWrite (utf8Encode data), .serialFlush]⟩

/-- `RS485Communication.receive_data`: always `readline()`. -/
def RS485Communication.receive_data (r : RS485Communication) :
    Step RS485Communication String :=
  match r.serial_conn with
  | none => ⟨.error (.connectionError "RS485 not connected."), r, []⟩
  | some c =>
    if ¬ c.is_open then
      ⟨.error (.connectionError "RS485 not connected."), r, []⟩
    else
      let q := c.readline
      ⟨.ok (pyStrip (utf8DecodeIgnore q.1)),
        { r with serial_conn := some q.2 }, [.serialReadline]⟩

/-! ## CAN (`src/communication/can_comm.py`) -/

/-- One `can.Message`. -/
structure CANMessage where
  arbitration_id : Nat
  data : List Nat
  is_extended_id : Bool
  deriving DecidableEq

/-- The `can.Bus` object: messages sent so far and the queue of pending
incoming frames. -/
structure CANBusState where
  sent : List CANMessage
  rxQueue : List (List Nat)
  deriving DecidableEq

/-- State of `CANCommunication` (`__init__` fields; defaults
`bitrate=500000`, `interface='socketcan'` are passed explicitly). -/
structure CANCommunication where
  channel : String
  bitrate : Nat
  interface : String
  bus : Option CANBusState
  deriving DecidableEq

/-- `CANCommunication.__init__`. -/
def CANCommunication.init (channel : String) (bitrate : Nat)
    (interface : String) : CANCommunication :=
  { channel := channel, bitrate := bitrate, interface := interface, bus := none }

/-- `is_connected`: `self.bus is not None`. -/
def CANCommunication.is_connected (c : CANCommunication) : Bool :=
  c.bus.isSome

/-- Outcome of the `can.Bus(...)` constructor. -/
inductive CanOpenOutcome
  | opened (rxQueue : List (List Nat))
  | failed (msg : String)
  deriving DecidableEq

/-- `CANCommunication.connect`. -/
def CANCommunication.connect (c : CANCommunication)
    (outcome : CanOpenOutcome) : Step CANCommunication Unit :=
  if c.bus.isSome then
    ⟨.ok (), c, []⟩
  else
    match outcome with
    | .opened rx => ⟨.ok (), { c with bus := some ⟨[], rx⟩ }, [.openCanBus]⟩
    | .failed msg =>
      ⟨.error (.connectionError
          ("Failed to initialize CAN bus on " ++ c.channel ++ ": " ++ msg)),
        c, []⟩

/-- `CANCommunication.disconnect`. -/
def CANCommunication.disconnect (c : CANCommunication) :
    CANCommunication × List Act :=
  match c.bus with
  | some _ => ({ c with bus := none }, [.shutdownCanBus])
  | none => (c, [])

/-- `CANCommunication.send_data` (default `arbitration_id=0x123` passed
explicitly).  `sendFails` says whether `bus.send` raises `can.CanError`. -/
def CANCommunication.send_data (c : CANCommunication) (data : String)
    (arbitration_id : Nat) (sendFails : Bool) : Step CANCommunication Unit :=
  if ¬ c.is_connected then
    ⟨.error (.connectionError "CAN bus not connected."), c, []⟩
  else
    match c.bus with
    | none => ⟨.error (.connectionError "CAN bus not connected."), c, []⟩
    | some b =>
      let message : CANMessage := ⟨arbitration_id, utf8Encode data, false⟩
      if sendFails then
        ⟨.error (.ioError "Error sending CAN message"), c, []⟩
      else
        ⟨.ok (), { c with bus := some { b with sent := b.sent ++ [message] } },
          [.canSend arbitration_id (utf8Encode data) false]⟩

/-- `CANCommunication.receive_data`: `bus.recv(timeout)` pops the next
pending frame, or returns `None` on timeout; a `None` message yields the
Python return value `None` (here `Option.none`), which is not an error. -/
def CANCommunication.receive_data (c : CANCommunication) (_timeout : Nat) :
    Step CANCommunication (Option String) :=
  if ¬ c.is_connected then
    ⟨.error (.connectionError "CAN bus not connected."), c, []⟩
  else
    match c.bus with
    | none => ⟨.error (.connectionError "CAN bus not connected."), c, []⟩
    | some b =>
      match b.rxQueue with
      | [] => ⟨.ok none, c, [.canRecv]⟩
      | frame :: rest =>
        ⟨.ok (some (utf8DecodeIgnore frame)),
          { c with bus := some { b with rxQueue := rest } }, [.canRecv]⟩

/-! ## I2C (`src/communication/i2c_comm.py`) -/

/-- The `smbus.SMBus` handle. -/
structure SMBusState where
  busNumber : Int
  deriving DecidableEq

/-- State of `I2CCommunication`: the stored construction parameters, the
`bus` handle and the `_connected` flag (field `connected` here). -/
structure I2CCommunication where
  bus_number : Int
  device_address : Int
  bus : Option SMBusState
  connected : Bool
  deriving DecidableEq

/-- `I2CCommunication.__init__`: stores the parameters unchecked. -/
def I2CCommunication.init (bus_number : Int) (device_address : Int) :
    I2CCommunication :=
  { bus_number := bus_number, device_address := device_address,
    bus := none, connected := false }

/-- `is_connected`: returns `self._connected`. -/
def I2CCommunication.is_connected (s : I2CCommunication) : Bool :=
  s.connected

/-- Outcome of the `smbus.SMBus(bus_number)` constructor. -/
inductive SmbusOpenOutcome
  | opened
  | failed (msg : String)
  deriving DecidableEq

/-- `I2CCommunication.connect`: guarded by `if self.bus: return`; on a
successful open the device-presence probe `read_byte` runs (`probeOk`
says whether it succeeds).  Note that when the probe raises, `self.bus`
keeps the already-assigned SMBus handle. -/
def I2CCommunication.connect (s : I2CCommunication)
    (outcome : SmbusOpenOutcome) (probeOk : Bool) :
    Step I2CCommunication Unit :=
  if s.bus.isSome then
    ⟨.ok (), s, []⟩
  else
    match outcome with
    | .failed msg =>
      ⟨.error (.connectionError ("Failed to open I2C bus: " ++ msg)),
        { s with connected := false }, []⟩
    | .opened =>
      if probeOk then
        ⟨.ok (), { s with bus := some ⟨s.bus_number⟩, connected := true },
          [.openSmbus s.bus_number, .smbusReadByte s.device_address]⟩
      else
        ⟨.error (.connectionError "Failed to find device"),
          { s with bus := some ⟨s.bus_number⟩, connected := false },
          [.openSmbus s.bus_number, .smbusReadByte s.device_address]⟩

/-- `I2CCommunication.disconnect`. -/
def I2CCommunication.disconnect (s : I2CCommunication) :
    I2CCommunication × List Act :=
  match s.bus with
  | some _ => ({ s with bus := none, connected := false }, [.closeSmbus])
  | none => ({ s with connected := false }, [])

/-- Payload accepted by `I2CCommunication.send_data`: a string or a list of
integers (byte values). -/
inductive I2CPayload
  | str (s : String)
  | intList (l : List Nat)
  deriving DecidableEq

/-- `I2CCommunication.send_data`.  A string is converted with
`[ord(c) for c in data]` (code points, not UTF-8 bytes).  With a register
the whole block is written; without one only `data_bytes[0]` is written
(`# Simple write, sends the first byte of data`), and nothing at all when
the list is empty. -/
def I2CCommunication.send_data (s : I2CCommunication) (data : I2CPayload)
    (register : Option Nat) (writeOk : Bool) : Step I2CCommunication Unit :=
  if ¬ s.is_connected then
    ⟨.error (.connectionError "I2C not connected."), s, []⟩
  else
    let data_bytes : List Nat :=
      match data with
      | .str str => str.data.map Char.toNat
      | .intList l => l
    match register with
    | some reg =>
      if writeOk then
        ⟨.ok (), s, [.smbusWriteBlock s.device_address reg data_bytes]⟩
      else
        ⟨.error (.ioError "I2C write failed"), s,
          [.smbusWriteBlock s.device_address reg data_bytes]⟩
    | none =>
      match data_bytes with
      | [] => ⟨.ok (), s, []⟩
      | b :: _ =>
        if writeOk then
          ⟨.ok (), s, [.smbusWriteByte s.device_address b]⟩
        else
          ⟨.error (.ioError "I2C write failed"), s,
            [.smbusWriteByte s.device_address b]⟩

/-- `I2CCommunication.receive_data`.  The device response is supplied as
`readOutcome` by the environment. -/
def I2CCommunication.receive_data (s : I2CCommunication) (num_bytes : Nat)
    (register : Option Nat) (readOutcome : Except String (List Nat)) :
    Step I2CCommunication (List Nat) :=
  if ¬ s.is_connected then
    ⟨.error (.connectionError "I2C not connected."), s, []⟩
  else
    match register with
    | some reg =>
      match readOutcome with
      | .ok bs =>
        ⟨.ok bs, s, [.smbusReadBlock s.device_address reg num_bytes]⟩
      | .error e =>
        ⟨.error (.ioError ("I2C read failed: " ++ e)), s,
          [.smbusReadBlock s.device_address reg num_bytes]⟩
    | none =>
      match readOutcome with
      | .ok bs =>
        ⟨.ok bs, s, List.replicate num_bytes (.smbusReadByte s.device_address)⟩
      | .error e =>
        ⟨.error (.ioError ("I2C read failed: " ++ e)), s,
          List.replicate num_bytes (.smbusReadByte s.device_address)⟩

/-! ## Background receiver (`CommunicationWorker` in `src/main_app.py`) -/

/-- What one `self.comm.receive_data()` call inside the worker loop did:
returned a value (`None`, or a string, where the empty string is falsy
like `None`), or raised an exception. -/
inductive RecvOutcome
  | value (d : Option String)
  | exn (msg : String)
  deriving DecidableEq

/-- Signals the worker emits to the GUI thread. -/
inductive UiEvent
  | dataReceived (s : String)
  | errorOccurred (msg : String)
  deriving DecidableEq

/-- `CommunicationWorker.run`, as a function of the sequence of receive
outcomes the transport produces while `_is_running` stays true: each
truthy result is emitted, a falsy result is skipped, and the first
exception is emitted as an error and breaks the loop (the remaining
outcomes are never consumed). -/
def CommunicationWorker.run : List RecvOutcome → List UiEvent
  | [] => []
  | .value d :: rest =>
    (match d with
      | some s => if s = "" then [] else [UiEvent.dataReceived s]
      | none => []) ++ CommunicationWorker.run rest
  | .exn m :: _ => [UiEvent.errorOccurred ("Data reception error: " ++ m)]

/-! ### Interleaving of the worker loop with `stop()`

The worker runs on its own QThread and checks `_is_running` only at the
top of each iteration; `stop()` runs on the GUI thread and just clears the
flag.  The machine below makes each worker sub-step (flag check, receive
call, emit, sleep) and the `stop()` call separate atomic actions, so
claims about what may happen after `stop()` returns are statements about
its runs. -/

/-- Program counter of the worker loop body. -/
inductive WorkerPC
  | atTop
  | beforeRecv
  | beforeEmit (d : Option String)
  | beforeSleep
  | stopped
  deriving DecidableEq

/-- Shared state: the worker position and the `_is_running` flag, plus
whether `stop()` has already run (it is called once). -/
structure SysState where
  pc : WorkerPC
  running : Bool
  stopDone : Bool
  deriving DecidableEq

/-- Atomic actions of the two threads.  `workerRecv d` is the blocking
`receive_data` call returning `d`. -/
inductive SysAction
  | workerCheck
  | workerRecv (d : Option String)
  | workerEmit
  | workerSleep
  | uiStop
  deriving DecidableEq

/-- Observable events of a run. -/
inductive SysEvent
  | dataReceived (s : String)
  | stopReturned
  | loopExited
  deriving DecidableEq

/-- One atomic step; an action that is not enabled in the current state is
a scheduler no-op. -/
def sysStep (st : SysState) : SysAction → SysState × List SysEvent
  | .workerCheck =>
    match st.pc with
    | .atTop =>
      if st.running then ({ st with pc := .beforeRecv }, [])
      else ({ st with pc := .stopped }, [SysEvent.loopExited])
    | _ => (st, [])
  | .workerRecv d =>
    match st.pc with
    | .beforeRecv => ({ st with pc := .beforeEmit d }, [])
    | _ => (st, [])
  | .workerEmit =>
    match st.pc with
    | .beforeEmit d =>
      ({ st with pc := .beforeSleep },
        match d with
        | some s => if s = "" then [] else [SysEvent.dataReceived s]
        | none => [])
    | _ => (st, [])
  | .workerSleep =>
    match st.pc with
    | .beforeSleep => ({ st with pc := .atTop }, [])
    | _ => (st, [])
  | .uiStop =>
    if st.stopDone then (st, [])
    else ({ st with running := false, stopDone := true }, [SysEvent.stopReturned])

/-- Events of a whole schedule. -/
def sysRun (st : SysState) : List SysAction → List SysEvent
  | [] => []
  | a :: rest =>
    (sysStep st a).2 ++ sysRun (sysStep st a).1 rest

/-- State right after `CommunicationWorker.run` set `_is_running = True`
and entered the loop, with `stop()` not yet called. -/
def workerInit : SysState :=
  ⟨.atTop, true, false⟩

/-- Number of data-received events in an event list. -/
def countData (evs : List SysEvent) : Nat :=
  (evs.filter (fun e => match e with | .dataReceived _ => true | _ => false)).length

/-- The events that happen strictly after `stop()` has returned. -/
def eventsAfterStop (evs : List SysEvent) : List SysEvent :=
  (evs.dropWhile (fun e => e ≠ SysEvent.stopReturned)).drop 1

/-! ## Session controller (`MainWindow` in `src/main_app.py`) -/

/-- The active transport held in `self.comm_instance`. -/
inductive CommInstance
  | uart (u : UARTCommunication)
  | rs485 (r : RS485Communication)
  | canDev (c : CANCommunication)
  | i2c (s : I2CCommunication)
  deriving DecidableEq

/-- Dispatch of `self.comm_instance.disconnect()`. -/
def CommInstance.disconnect : CommInstance → CommInstance
  | .uart u => .uart (u.disconnect).1
  | .rs485 r => .rs485 (r.disconnect).1
  | .canDev c => .canDev (c.disconnect).1
  | .i2c s => .i2c (s.disconnect).1

/-- Dispatch of `self.comm_instance.is_connected()`. -/
def CommInstance.is_connected : CommInstance → Bool
  | .uart u => u.is_connected
  | .rs485 r => r.is_connected
  | .canDev c => c.is_connected
  | .i2c s => s.is_connected

/-- The `MainWindow` fields involved in connection teardown:
`comm_instance`, and whether a worker / worker thread pair is present
(they are created together in `connect_device`). -/
structure MainWindowState where
  comm_instance : Option CommInstance
  workerActive : Bool
  log : List String
  deriving DecidableEq

/-- Teardown actions performed by `disconnect_device`, in order. -/
inductive SessionAct
  | workerStop
  | threadQuitWait
  | transportDisconnect
  deriving DecidableEq

/-- `MainWindow.disconnect_device`: stop the worker if present, quit and
join its thread, disconnect the transport if present, log, and clear
`comm_instance`. -/
def MainWindow.disconnect_device (w : MainWindowState) :
    MainWindowState × List SessionAct :=
  let workerActs : List SessionAct :=
    if w.workerActive then [.workerStop, .threadQuitWait] else []
  let commActs : List SessionAct :=
    match w.comm_instance with
    | some _ => [.transportDisconnect]
    | none => []
  ({ comm_instance := none, workerActive := false,
      log := w.log ++ ["Disconnected."] }, workerActs ++ commActs)

/-- `MainWindow.handle_comm_error`: log the error, then run
`disconnect_device` (the message box is GUI-only and not modelled). -/
def MainWindow.handle_comm_error (w : MainWindowState) (msg : String) :
    MainWindowState × List SessionAct :=
  MainWindow.disconnect_device { w with log := w.log ++ ["ERROR: " ++ msg] }

/-- `connect_device`, I2C branch: after parsing the address the
constructor is called directly, with no range validation anywhere on the
path. -/
def MainWindow.buildI2C (bus : Int) (addr : Int) : I2CCommunication :=
  I2CCommunication.init bus addr

/-! ## Concrete states used by witnesses and counterexamples -/

/-- A freshly constructed (never connected) UART object. -/
def uartEx : UARTCommunication :=
  UARTCommunication.init "/dev/ttyUSB0" 115200 1

/-- A freshly constructed RS485 object. -/
def rs485Ex : RS485Communication :=
  RS485Communication.init "/dev/ttyUSB0" 115200 1

/-- A freshly constructed CAN object. -/
def canEx : CANCommunication :=
  CANCommunication.init "can0" 500000 "socketcan"

/-- A freshly constructed I2C object (bus 1, address 0x42). -/
def i2cEx : I2CCommunication :=
  I2CCommunication.init 1 66

/-- A connected UART object with an open, empty port. -/
def uartConnEx : UARTCommunication :=
  { port := "/dev/ttyUSB0", baudrate := 115200, timeout := 1,
    serial_conn := some ⟨true, [], []⟩ }

/-- A connected RS485 object with an open, empty port. -/
def rs485ConnEx : RS485Communication :=
  { port := "/dev/ttyUSB0", baudrate := 115200, timeout := 1,
    serial_conn := some ⟨true, [], []⟩ }

/-- A connected CAN object with an empty receive queue. -/
def canConnEx : CANCommunication :=
  { channel := "can0", bitrate := 500000, interface := "socketcan",
    bus := some ⟨[], []⟩ }

/-- A connected I2C object. -/
def i2cConnEx : I2CCommunication :=
  { bus_number := 1, device_address := 66, bus := some ⟨1⟩, connected := true }

/-! ## Claims -/

/-- C1: for every transport variant (UART, RS485, CAN, I2C), calling send
or receive while the transport is disconnected (`is_connected()` false)
raises `ConnectionError`, leaves the object unchanged, and performs no I/O
on the underlying handle. -/
theorem c1_disconnected_send_receive_no_io :
    (∀ (u : UARTCommunication) (data : String) (t : Bool),
      u.is_connected = false →
      u.send_data data t = ⟨.error (.connectionError "UART not connected."), u, []⟩)
    ∧ (∀ (u : UARTCommunication) (nb : Option Nat),
      u.is_connected = false →
      u.receive_data nb = ⟨.error (.connectionError "UART not connected."), u, []⟩)
    ∧ (∀ (r : RS485Communication) (data : String) (t : Bool),
      r.is_connected = false →
      r.send_data data t = ⟨.error (.connectionError "RS485 not connected."), r, []⟩)
    ∧ (∀ r : RS485Communication,
      r.is_connected = false →
      r.receive_data = ⟨.error (.connectionError "RS485 not connected."), r, []⟩)
    ∧ (∀ (c : CANCommunication) (data : String) (arb : Nat) (f : Bool),
      c.is_connected = false →
      c.send_data data arb f = ⟨.error (.connectionError "CAN bus not connected."), c, []⟩)
    ∧ (∀ (c : CANCommunication) (t : Nat),
      c.is_connected = false →
      c.receive_data t = ⟨.error (.connectionError "CAN bus not connected."), c, []⟩)
    ∧ (∀ (s : I2CCommunication) (d : I2CPayload) (reg : Option Nat) (ok : Bool),
      s.is_connected = false →
      s.send_data d reg ok = ⟨.error (.connectionError "I2C not connected."), s, []⟩)
    ∧ (∀ (s : I2CCommunication) (n : Nat) (reg : Option Nat)
        (ro : Except String (List Nat)),
      s.is_connected = false →
      s.receive_data n reg ro = ⟨.error (.connectionError "I2C not connected."), s, []⟩) := by
  refine ⟨?_, ?_, ?_, ?_, ?_, ?_, ?_, ?_⟩
  · intro u data t h
    unfold UARTCommunication.send_data
    cases hc : u.serial_conn with
    | none => rfl
    | some c =>
      have hop : c.is_open = false := by
        unfold UARTCommunication.is_connected at h
        rw [hc] at h
        exact h
      simp [hop]
  · intro u nb h
    unfold UARTCommunication.receive_data
    cases hc : u.serial_conn with
    | none => rfl
    | some c =>
      have hop : c.is_open = false := by
        unfold UARTCommunication.is_connected at h
        rw [hc] at h
        exact h
      simp [hop]
  · intro r data t h
    unfold RS485Communication.send_data
    cases hc : r.serial_conn with
    | none => rfl
    | some c =>
      have hop : c.is_open = false := by
        unfold RS485Communication.is_connected at h
        rw [hc] at h
        exact h
      simp [hop]
  · intro r h
    unfold RS485Communication.receive_data
    cases hc : r.serial_conn with
    | none => rfl
    | some c =>
      have hop : c.is_open = false := by
        unfold RS485Communication.is_connected at h
        rw [hc] at h
        exact h
      simp [hop]
  · intro c data arb f h
    simp [CANCommunication.send_data, h]
  · intro c t h
    simp [CANCommunication.receive_data, h]
  · intro s d reg ok h
    unfold I2CCommunication.send_data
    rw [if_pos (by simp [h] : ¬ s.is_connected = true)]
  · intro s n reg ro h
    unfold I2CCommunication.receive_data
    rw [if_pos (by simp [h] : ¬ s.is_connected = true)]

/-- C1 witness: the disconnected-transport guard fires at concrete fresh
objects of all four classes, for send and for receive. -/
theorem c1_witness :
    uartEx.send_data "x" false
      = ⟨.error (.connectionError "UART not connected."), uartEx, []⟩
    ∧ uartEx.receive_data none
      = ⟨.error (.connectionError "UART not connected."), uartEx, []⟩
    ∧ rs485Ex.send_data "x" false
      = ⟨.error (.connectionError "RS485 not connected."), rs485Ex, []⟩
    ∧ rs485Ex.receive_data
      = ⟨.error (.connectionError "RS485 not connected."), rs485Ex, []⟩
    ∧ canEx.send_data "x" 291 false
      = ⟨.error (.connectionError "CAN bus not connected."), canEx, []⟩
    ∧ canEx.receive_data 1
      = ⟨.error (.connectionError "CAN bus not connected."), canEx, []⟩
    ∧ i2cEx.send_data (.str "x") none true
      = ⟨.error (.connectionError "I2C not connected."), i2cEx, []⟩
    ∧ i2cEx.receive_data 1 none (.ok [0])
      = ⟨.error (.connectionError "I2C not connected."), i2cEx, []⟩ := by
  obtain ⟨h1, h2, h3, h4, h5, h6, h7, h8⟩ := c1_disconnected_send_receive_no_io
  exact ⟨h1 uartEx "x" false (by decide), h2 uartEx none (by decide),
    h3 rs485Ex "x" false (by decide), h4 rs485Ex (by decide),
    h5 canEx "x" 291 false (by decide), h6 canEx 1 (by decide),
    h7 i2cEx (.str "x") none true (by decide), h8 i2cEx 1 none (.ok [0]) (by decide)⟩

/-- C2 counterexample: on the connected I2C transport, sending the string
payload "AB" in the default (no-register) mode writes only the first
byte 65 to the bus, not the full UTF-8 byte sequence [65, 66], so the
claim "every transport variant writes the entire UTF-8 byte sequence in a
single write call" is false. -/
theorem c2_counterexample :
    writtenBytes (I2CCommunication.send_data i2cConnEx (.str "AB") none true).io = [65]
    ∧ utf8Encode "AB" = [65, 66]
    ∧ writtenBytes (I2CCommunication.send_data i2cConnEx (.str "AB") none true).io
        ≠ utf8Encode "AB" := by
  decide

/-- C2 amended: for UART, RS485 and CAN, send on a connected transport
encodes the string payload to UTF-8 and writes the whole byte sequence in
a single write call.  For I2C the payload is converted to its list of
character code points, not UTF-8; with a register the whole list is
written in one block write, but in the default no-register mode only the
first code point is written (and nothing at all for an empty payload). -/
theorem c2_amended_send_encoding :
    (∀ (u : UARTCommunication) (data : String), u.is_connected = true →
      (u.send_data data false).io = [Act.serialWrite (utf8Encode data)]
      ∧ (u.send_data data false).result = .ok ())
    ∧ (∀ (r : RS485Communication) (data : String), r.is_connected = true →
      (r.send_data data false).io = [Act.serialWrite (utf8Encode data), Act.serialFlush]
      ∧ (r.send_data data false).result = .ok ())
    ∧ (∀ (c : CANCommunication) (data : String) (arb : Nat), c.is_connected = true →
      (c.send_data data arb false).io = [Act.canSend arb (utf8Encode data) false]
      ∧ (c.send_data data arb false).result = .ok ())
    ∧ (∀ (s : I2CCommunication) (str : String) (reg : Nat), s.is_connected = true →
      (s.send_data (.str str) (some reg) true).io
        = [Act.smbusWriteBlock s.device_address reg (str.data.map Char.toNat)])
    ∧ (∀ (s : I2CCommunication) (str : String) (ch : Char) (tl : List Char),
      s.is_connected = true → str.data = ch :: tl →
      (s.send_data (.str str) none true).io
        = [Act.smbusWriteByte s.device_address ch.toNat])
    ∧ (∀ (s : I2CCommunication) (str : String),
      s.is_connected = true → str.data = [] →
      (s.send_data (.str str) none true).io = []) := by
  refine ⟨?_, ?_, ?_, ?_, ?_, ?_⟩
  · intro u data h
    unfold UARTCommunication.send_data
    cases hc : u.serial_conn with
    | none =>
      exact absurd (by unfold UARTCommunication.is_connected at h; rw [hc] at h; exact h)
        (by simp)
    | some c =>
      have hop : c.is_open = true := by
        unfold UARTCommunication.is_connected at h
        rw [hc] at h
        exact h
      simp [hop]
  · intro r data h
    unfold RS485Communication.send_data
    cases hc : r.serial_conn with
    | none =>
      exact absurd (by unfold RS485Communication.is_connected at h; rw [hc] at h; exact h)
        (by simp)
    | some c =>
      have hop : c.is_open = true := by
        unfold RS485Communication.is_connected at h
        rw [hc] at h
        exact h
      simp [hop]
  · intro c data arb h
    unfold CANCommunication.send_data
    rw [if_neg (by simp [h] : ¬ (¬ c.is_connected = true))]
    cases hc : c.bus with
    | none =>
      exact absurd (by unfold CANCommunication.is_connected at h; rw [hc] at h; exact h)
        (by simp)
    | some b => simp
  · intro s str reg h
    unfold I2CCommunication.send_data
    rw [if_neg (by simp [h] : ¬ (¬ s.is_connected = true))]
    simp
  · intro s str ch tl h hdata
    unfold I2CCommunication.send_data
    rw [if_neg (by simp [h] : ¬ (¬ s.is_connected = true))]
    simp [hdata]
  · intro s str h hdata
    unfold I2CCommunication.send_data
    rw [if_neg (by simp [h] : ¬ (¬ s.is_connected = true))]
    simp [hdata]

/-- C2 witness: the amended send behaviour evaluated on concrete connected
transports with the payload "AB" (and register 16 for the I2C block
case). -/
theorem c2_witness :
    (UARTCommunication.send_data uartConnEx "AB" false).io
      = [Act.serialWrite (utf8Encode "AB")]
    ∧ (RS485Communication.send_data rs485ConnEx "AB" false).io
      = [Act.serialWrite (utf8Encode "AB"), Act.serialFlush]
    ∧ (CANCommunication.send_data canConnEx "AB" 291 false).io
      = [Act.canSend 291 (utf8Encode "AB") false]
    ∧ (I2CCommunication.send_data i2cConnEx (.str "AB") (some 16) true).io
      = [Act.smbusWriteBlock 66 16 [65, 66]]
    ∧ (I2CCommunication.send_data i2cConnEx (.str "AB") none true).io
      = [Act.smbusWriteByte 66 65]
    ∧ (I2CCommunication.send_data i2cConnEx (.str "") none true).io = [] := by
  obtain ⟨h1, h2, h3, h4, h5, h6⟩ := c2_amended_send_encoding
  refine ⟨(h1 uartConnEx "AB" (by decide)).1, (h2 rs485ConnEx "AB" (by decide)).1,
    (h3 canConnEx "AB" 291 (by decide)).1, ?_,
    ?_, h6 i2cConnEx "" (by decide) (by decide)⟩
  · have := h4 i2cConnEx "AB" 16 (by decide)
    rw [this]
    decide
  · have := h5 i2cConnEx "AB" 'A' ['B'] (by decide) (by decide)
    rw [this]
    decide

/-- C3 counterexample: on the I2C transport, a `connect()` that opens the
SMBus but fails the device-presence probe raises `ConnectionError` yet
leaves the opened bus handle stored in the object, so after this failing
connect the OS handle is NOT released. -/
theorem c3_counterexample :
    ((I2CCommunication.init 1 66).connect .opened false).result
      = .error (.connectionError "Failed to find device")
    ∧ ((I2CCommunication.init 1 66).connect .opened false).state.bus = some ⟨1⟩
    ∧ ((I2CCommunication.init 1 66).connect .opened false).state.bus ≠ none := by
  decide

/-- C3 amended: for every transport variant `disconnect()` always leaves
the transport reporting not-connected and is idempotent; CAN and I2C clear
their handle unconditionally, UART/RS485 clear it whenever it was open
(i.e. whenever the transport was connected).  A failed open during
`connect()` leaves the object's handle state unchanged (hence still
Disconnected when it started Disconnected), but in the I2C variant a
`connect()` whose device probe fails retains the freshly opened bus
handle while reporting not-connected; only a later `disconnect()`
releases it. -/
theorem c3_amended_disconnect_releases :
    (∀ u : UARTCommunication, (u.disconnect).1.is_connected = false
      ∧ ((u.disconnect).1.disconnect).1 = (u.disconnect).1)
    ∧ (∀ u : UARTCommunication, u.is_connected = true →
      (u.disconnect).1.serial_conn = none)
    ∧ (∀ r : RS485Communication, (r.disconnect).1.is_connected = false
      ∧ ((r.disconnect).1.disconnect).1 = (r.disconnect).1)
    ∧ (∀ r : RS485Communication, r.is_connected = true →
      (r.disconnect).1.serial_conn = none)
    ∧ (∀ c : CANCommunication, (c.disconnect).1.bus = none
      ∧ (c.disconnect).1.is_connected = false
      ∧ ((c.disconnect).1.disconnect).1 = (c.disconnect).1)
    ∧ (∀ s : I2CCommunication, (s.disconnect).1.bus = none
      ∧ (s.disconnect).1.is_connected = false
      ∧ ((s.disconnect).1.disconnect).1 = (s.disconnect).1)
    ∧ (∀ (u : UARTCommunication) (msg : String),
      (u.connect (.failed msg)).state = u)
    ∧ (∀ (r : RS485Communication) (msg : String),
      (r.connect (.failed msg)).state = r)
    ∧ (∀ (c : CANCommunication) (msg : String),
      (c.connect (.failed msg)).state = c)
    ∧ (∀ (s : I2CCommunication) (msg : String), s.bus = none →
      ((s.connect (.failed msg) true).state).is_connected = false
      ∧ ((s.connect (.failed msg) true).state).bus = none)
    ∧ (∀ b a : Int,
      (((I2CCommunication.init b a).connect .opened false).state).is_connected = false
      ∧ (((I2CCommunication.init b a).connect .opened false).state).bus = some ⟨b⟩
      ∧ ((((I2CCommunication.init b a).connect .opened false).state).disconnect).1.bus
          = none) := by
  refine ⟨?_, ?_, ?_, ?_, ?_, ?_, ?_, ?_, ?_, ?_, ?_⟩
  · rintro ⟨port, baud, tmo, (_ | ⟨op, rx, tx⟩)⟩
    · exact ⟨rfl, rfl⟩
    · cases op
      · exact ⟨rfl, rfl⟩
      · exact ⟨rfl, rfl⟩
  · rintro ⟨port, baud, tmo, (_ | ⟨op, rx, tx⟩)⟩ h
    · simp [UARTCommunication.is_connected] at h
    · cases op
      · simp [UARTCommunication.is_connected] at h
      · rfl
  · rintro ⟨port, baud, tmo, (_ | ⟨op, rx, tx⟩)⟩
    · exact ⟨rfl, rfl⟩
    · cases op
      · exact ⟨rfl, rfl⟩
      · exact ⟨rfl, rfl⟩
  · rintro ⟨port, baud, tmo, (_ | ⟨op, rx, tx⟩)⟩ h
    · simp [RS485Communication.is_connected] at h
    · cases op
      · simp [RS485Communication.is_connected] at h
      · rfl
  · rintro ⟨ch, br, ifc, (_ | ⟨sent, rxq⟩)⟩
    · exact ⟨rfl, rfl, rfl⟩
    · exact ⟨rfl, rfl, rfl⟩
  · rintro ⟨bn, da, (_ | ⟨hbn⟩), hconn⟩
    · exact ⟨rfl, rfl, rfl⟩
    · exact ⟨rfl, rfl, rfl⟩
  · intro u msg
    unfold UARTCommunication.connect
    by_cases h : u.is_connected = true
    · simp [h]
    · simp [h]
  · intro r msg
    unfold RS485Communication.connect
    by_cases h : r.is_connected = true
    · simp [h]
    · simp [h]
  · intro c msg
    unfold CANCommunication.connect
    by_cases h : c.bus.isSome = true
    · simp [h]
    · simp [h]
  · intro s msg h
    unfold I2CCommunication.connect
    rw [if_neg (by simp [h] : ¬ s.bus.isSome = true)]
    exact ⟨rfl, h⟩
  · intro b a
    exact ⟨rfl, rfl, rfl⟩

/-- C3 witness: disconnect on concrete connected and never-connected
objects, and the failing-open connect on fresh objects, evaluated
concretely. -/
theorem c3_witness :
    (uartConnEx.disconnect).1.is_connected = false
    ∧ (uartConnEx.disconnect).1.serial_conn = none
    ∧ (rs485ConnEx.disconnect).1.is_connected = false
    ∧ (rs485ConnEx.disconnect).1.serial_conn = none
    ∧ (canConnEx.disconnect).1.bus = none
    ∧ (i2cConnEx.disconnect).1.bus = none
    ∧ (uartEx.connect (.failed "no such port")).state = uartEx
    ∧ (rs485Ex.connect (.failed "no such port")).state = rs485Ex
    ∧ (canEx.connect (.failed "no such channel")).state = canEx
    ∧ ((i2cEx.connect (.failed "no such bus") true).state).bus = none
    ∧ (((I2CCommunication.init 1 66).connect .opened false).state).bus = some ⟨1⟩ := by
  obtain ⟨h1, h2, h3, h4, h5, h6, h7, h8, h9, h10, h11⟩ :=
    c3_amended_disconnect_releases
  exact ⟨(h1 uartConnEx).1, h2 uartConnEx (by decide), (h3 rs485ConnEx).1,
    h4 rs485ConnEx (by decide), (h5 canConnEx).1, (h6 i2cConnEx).1,
    h7 uartEx "no such port", h8 rs485Ex "no such port",
    h9 canEx "no such channel", (h10 i2cEx "no such bus" (by decide)).2,
    (h11 1 66).2.1⟩

/-- C4 counterexample: constructing an I2C transport with
deviceAddress = 200 (outside 0..127) does not fail at all — `__init__`
(reached through the `connect_device` I2C branch) is a total constructor
that just stores the address, so no ConfigError exists; and the first
failure opportunity is `connect()`, which does attempt I/O (it opens the
bus and probes address 200). -/
theorem c4_counterexample :
    MainWindow.buildI2C 1 200
      = { bus_number := 1, device_address := 200, bus := none, connected := false }
    ∧ ((MainWindow.buildI2C 1 200).connect .opened false).io
      = [Act.openSmbus 1, Act.smbusReadByte 200]
    ∧ ((MainWindow.buildI2C 1 200).connect .opened false).io ≠ [] := by
  decide

/-- C4 amended: the I2C constructor performs no validation of the device
address: any address (including 200) is accepted and stored, the
construction itself performs no I/O and cannot fail, and an out-of-range
address first surfaces at `connect()`, which attempts I/O (opens the bus
and probes the stored address) and raises ConnectionError when the probe
fails. -/
theorem c4_amended_no_validation : ∀ b a : Int,
    MainWindow.buildI2C b a
      = { bus_number := b, device_address := a, bus := none, connected := false }
    ∧ ((MainWindow.buildI2C b a).connect .opened false).io
      = [Act.openSmbus b, Act.smbusReadByte a]
    ∧ ((MainWindow.buildI2C b a).connect .opened false).result
      = .error (.connectionError "Failed to find device") := by
  intro b a
  exact ⟨rfl, rfl, rfl⟩

/-- Helper: `connect` on a connected UART object is a no-op. -/
lemma uartConnectConnected (u : UARTCommunication) (o : SerialOpenOutcome)
    (h : u.is_connected = true) : u.connect o = ⟨.ok (), u, []⟩ := by
  unfold UARTCommunication.connect
  rw [if_pos h]

/-- Helper: a successful open on a disconnected UART object. -/
lemma uartConnectOpened (u : UARTCommunication) (rx : List Nat)
    (h : u.is_connected = false) :
    u.connect (.opened rx)
      = ⟨.ok (), { u with serial_conn := some ⟨true, rx, []⟩ }, [.openSerial]⟩ := by
  unfold UARTCommunication.connect
  rw [if_neg (by simp [h])]

/-- Helper: a failed open on a disconnected UART object. -/
lemma uartConnectFailed (u : UARTCommunication) (msg : String)
    (h : u.is_connected = false) :
    u.connect (.failed msg)
      = ⟨.error (.connectionError ("Failed to open port " ++ u.port ++ ": " ++ msg)),
          u, []⟩ := by
  unfold UARTCommunication.connect
  rw [if_neg (by simp [h])]

/-- Helper: `connect` on a connected RS485 object is a no-op. -/
lemma rs485ConnectConnected (r : RS485Communication) (o : SerialOpenOutcome)
    (h : r.is_connected = true) : r.connect o = ⟨.ok (), r, []⟩ := by
  unfold RS485Communication.connect
  rw [if_pos h]

/-- Helper: a successful open on a disconnected RS485 object. -/
lemma rs485ConnectOpened (r : RS485Communication) (rx : List Nat)
    (h : r.is_connected = false) :
    r.connect (.opened rx)
      = ⟨.ok (), { r with serial_conn := some ⟨true, rx, []⟩ }, [.openSerial]⟩ := by
  unfold RS485Communication.connect
  rw [if_neg (by simp [h])]

/-- Helper: a failed open on a disconnected RS485 object. -/
lemma rs485ConnectFailed (r : RS485Communication) (msg : String)
    (h : r.is_connected = false) :
    r.connect (.failed msg)
      = ⟨.error (.connectionError
          ("Failed to open RS485 port " ++ r.port ++ ": " ++ msg)), r, []⟩ := by
  unfold RS485Communication.connect
  rw [if_neg (by simp [h])]

/-- Helper: `connect` on a CAN object that holds a bus is a no-op. -/
lemma canConnectConnected (c : CANCommunication) (o : CanOpenOutcome)
    (h : c.bus.isSome = true) : c.connect o = ⟨.ok (), c, []⟩ := by
  unfold CANCommunication.connect
  rw [if_pos h]

/-- Helper: a successful open on a bus-free CAN object. -/
lemma canConnectOpened (c : CANCommunication) (rx : List (List Nat))
    (h : c.bus = none) :
    c.connect (.opened rx)
      = ⟨.ok (), { c with bus := some ⟨[], rx⟩ }, [.openCanBus]⟩ := by
  unfold CANCommunication.connect
  rw [if_neg (by simp [h])]

/-- Helper: a failed open on a bus-free CAN object. -/
lemma canConnectFailed (c : CANCommunication) (msg : String)
    (h : c.bus = none) :
    c.connect (.failed msg)
      = ⟨.error (.connectionError
          ("Failed to initialize CAN bus on " ++ c.channel ++ ": " ++ msg)),
          c, []⟩ := by
  unfold CANCommunication.connect
  rw [if_neg (by simp [h])]

/-- Helper: `connect` on an I2C object that holds a bus handle is a no-op,
whatever the environment would do. -/
lemma i2cConnectHolding (s : I2CCommunication) (o : SmbusOpenOutcome) (p : Bool)
    (h : s.bus.isSome = true) : s.connect o p = ⟨.ok (), s, []⟩ := by
  unfold I2CCommunication.connect
  rw [if_pos h]

/-- Helper: successful open and probe on a handle-free I2C object. -/
lemma i2cConnectOpenedTrue (s : I2CCommunication) (h : s.bus = none) :
    s.connect .opened true
      = ⟨.ok (), { s with bus := some ⟨s.bus_number⟩, connected := true },
          [.openSmbus s.bus_number, .smbusReadByte s.device_address]⟩ := by
  unfold I2CCommunication.connect
  rw [if_neg (by simp [h])]
  rfl

/-- Helper: successful open but failed probe on a handle-free I2C object. -/
lemma i2cConnectOpenedFalse (s : I2CCommunication) (h : s.bus = none) :
    s.connect .opened false
      = ⟨.error (.connectionError "Failed to find device"),
          { s with bus := some ⟨s.bus_number⟩, connected := false },
          [.openSmbus s.bus_number, .smbusReadByte s.device_address]⟩ := by
  unfold I2CCommunication.connect
  rw [if_neg (by simp [h])]
  rfl

/-- Helper: failed open on a handle-free I2C object. -/
lemma i2cConnectFailed (s : I2CCommunication) (msg : String)
    (h : s.bus = none) :
    s.connect (.failed msg) true
      = ⟨.error (.connectionError ("Failed to open I2C bus: " ++ msg)),
          { s with connected := false }, []⟩ := by
  unfold I2CCommunication.connect
  rw [if_neg (by simp [h])]

/-- C5: for every transport variant and any pair of environment outcomes,
two consecutive `connect()` calls perform at most one successful open of
the underlying OS resource, and a `connect()` on an already connected
object (for I2C: an object already holding a bus handle) is an immediate
no-op with no I/O. -/
theorem c5_connect_idempotent :
    (∀ (u : UARTCommunication) (o1 o2 : SerialOpenOutcome),
      openCount (u.connect o1).io
        + openCount (((u.connect o1).state.connect o2)).io ≤ 1)
    ∧ (∀ (u : UARTCommunication) (o : SerialOpenOutcome),
      u.is_connected = true → u.connect o = ⟨.ok (), u, []⟩)
    ∧ (∀ (r : RS485Communication) (o1 o2 : SerialOpenOutcome),
      openCount (r.connect o1).io
        + openCount (((r.connect o1).state.connect o2)).io ≤ 1)
    ∧ (∀ (r : RS485Communication) (o : SerialOpenOutcome),
      r.is_connected = true → r.connect o = ⟨.ok (), r, []⟩)
    ∧ (∀ (c : CANCommunication) (o1 o2 : CanOpenOutcome),
      openCount (c.connect o1).io
        + openCount (((c.connect o1).state.connect o2)).io ≤ 1)
    ∧ (∀ (c : CANCommunication) (o : CanOpenOutcome),
      c.is_connected = true → c.connect o = ⟨.ok (), c, []⟩)
    ∧ (∀ (s : I2CCommunication) (o1 o2 : SmbusOpenOutcome) (p1 p2 : Bool),
      openCount (s.connect o1 p1).io
        + openCount (((s.connect o1 p1).state.connect o2 p2)).io ≤ 1)
    ∧ (∀ (s : I2CCommunication) (o : SmbusOpenOutcome) (p : Bool),
      s.bus.isSome = true → s.connect o p = ⟨.ok (), s, []⟩) := by
  refine ⟨?_, ?_, ?_, ?_, ?_, ?_, ?_, ?_⟩
  · intro u o1 o2
    by_cases h : u.is_connected = true
    · rw [uartConnectConnected u o1 h, uartConnectConnected u o2 h]
      simp [openCount]
    · have h0 : u.is_connected = false := by
        cases hv : u.is_connected
        · rfl
        · exact absurd hv h
      cases o1 with
      | opened rx =>
        rw [uartConnectOpened u rx h0]
        rw [uartConnectConnected
          { u with serial_conn := some ⟨true, rx, []⟩ } o2 rfl]
        simp [openCount, Act.isOpen]
      | failed m =>
        rw [uartConnectFailed u m h0]
        cases o2 with
        | opened rx2 =>
          rw [uartConnectOpened u rx2 h0]
          simp [openCount, Act.isOpen]
        | failed m2 =>
          rw [uartConnectFailed u m2 h0]
          simp [openCount]
  · exact uartConnectConnected
  · intro r o1 o2
    by_cases h : r.is_connected = true
    · rw [rs485ConnectConnected r o1 h, rs485ConnectConnected r o2 h]
      simp [openCount]
    · have h0 : r.is_connected = false := by
        cases hv : r.is_connected
        · rfl
        · exact absurd hv h
      cases o1 with
      | opened rx =>
        rw [rs485ConnectOpened r rx h0]
        rw [rs485ConnectConnected
          { r with serial_conn := some ⟨true, rx, []⟩ } o2 rfl]
        simp [openCount, Act.isOpen]
      | failed m =>
        rw [rs485ConnectFailed r m h0]
        cases o2 with
        | opened rx2 =>
          rw [rs485ConnectOpened r rx2 h0]
          simp [openCount, Act.isOpen]
        | failed m2 =>
          rw [rs485ConnectFailed r m2 h0]
          simp [openCount]
  · exact rs485ConnectConnected
  · intro c o1 o2
    cases hb : c.bus with
    | some b =>
      rw [canConnectConnected c o1 (by simp [hb]),
        canConnectConnected c o2 (by simp [hb])]
      simp [openCount]
    | none =>
      cases o1 with
      | opened rx =>
        rw [canConnectOpened c rx hb]
        rw [canConnectConnected { c with bus := some ⟨[], rx⟩ } o2 rfl]
        simp [openCount, Act.isOpen]
      | failed m =>
        rw [canConnectFailed c m hb]
        cases o2 with
        | opened rx2 =>
          rw [canConnectOpened c rx2 hb]
          simp [openCount, Act.isOpen]
        | failed m2 =>
          rw [canConnectFailed c m2 hb]
          simp [openCount]
  · intro c o h
    exact canConnectConnected c o h
  · intro s o1 o2 p1 p2
    cases hb : s.bus with
    | some b =>
      rw [i2cConnectHolding s o1 p1 (by simp [hb]),
        i2cConnectHolding s o2 p2 (by simp [hb])]
      simp [openCount]
    | none =>
      cases o1 with
      | opened =>
        cases p1 with
        | true =>
          rw [i2cConnectOpenedTrue s hb]
          rw [i2cConnectHolding
            { s with bus := some ⟨s.bus_number⟩, connected := true } o2 p2 rfl]
          simp [openCount, Act.isOpen]
        | false =>
          rw [i2cConnectOpenedFalse s hb]
          rw [i2cConnectHolding
            { s with bus := some ⟨s.bus_number⟩, connected := false } o2 p2 rfl]
          simp [openCount, Act.isOpen]
      | failed m =>
        have hio : (s.connect (.failed m) p1).io = []
            ∧ (s.connect (.failed m) p1).state
                = { s with connected := false } := by
          unfold I2CCommunication.connect
          rw [if_neg (by simp [hb])]
          exact ⟨rfl, rfl⟩
        rw [hio.1, hio.2]
        cases o2 with
        | opened =>
          cases p2 with
          | true =>
            rw [i2cConnectOpenedTrue { s with connected := false } (by simp [hb])]
            simp [openCount, Act.isOpen]
          | false =>
            rw [i2cConnectOpenedFalse { s with connected := false } (by simp [hb])]
            simp [openCount, Act.isOpen]
        | failed m2 =>
          have hio2 : (({ s with connected := false }
              : I2CCommunication).connect (.failed m2) p2).io = [] := by
            unfold I2CCommunication.connect
            rw [if_neg (by simp [hb])]
          rw [hio2]
          simp [openCount]
  · exact i2cConnectHolding

/-- C5 witness: two consecutive connects on fresh objects of each variant,
with a successful first open, perform exactly one open in total; and a
connect on concrete connected objects is a no-op. -/
theorem c5_witness :
    openCount (uartEx.connect (.opened [])).io
      + openCount (((uartEx.connect (.opened [])).state.connect (.opened []))).io ≤ 1
    ∧ uartConnEx.connect (.opened []) = ⟨.ok (), uartConnEx, []⟩
    ∧ openCount (rs485Ex.connect (.opened [])).io
      + openCount (((rs485Ex.connect (.opened [])).state.connect (.opened []))).io ≤ 1
    ∧ rs485ConnEx.connect (.opened []) = ⟨.ok (), rs485ConnEx, []⟩
    ∧ openCount (canEx.connect (.opened [])).io
      + openCount (((canEx.connect (.opened [])).state.connect (.opened []))).io ≤ 1
    ∧ canConnEx.connect (.opened []) = ⟨.ok (), canConnEx, []⟩
    ∧ openCount (i2cEx.connect .opened true).io
      + openCount (((i2cEx.connect .opened true).state.connect .opened true)).io ≤ 1
    ∧ i2cConnEx.connect .opened true = ⟨.ok (), i2cConnEx, []⟩ := by
  obtain ⟨h1, h2, h3, h4, h5, h6, h7, h8⟩ := c5_connect_idempotent
  exact ⟨h1 uartEx (.opened []) (.opened []), h2 uartConnEx (.opened []) (by decide),
    h3 rs485Ex (.opened []) (.opened []), h4 rs485ConnEx (.opened []) (by decide),
    h5 canEx (.opened []) (.opened []), h6 canConnEx (.opened []) (by decide),
    h7 i2cEx .opened .opened true true, h8 i2cConnEx .opened true (by decide)⟩

/-- C6: a receive timeout with no data pending is not an error: CAN
returns `None`, UART and RS485 return the empty string; and the
background receiver loop treats such falsy results as "emit nothing and
keep looping". -/
theorem c6_timeout_yields_empty :
    (∀ (c : CANCommunication) (b : CANBusState) (t : Nat),
      c.bus = some b → b.rxQueue = [] →
      c.receive_data t = ⟨.ok none, c, [.canRecv]⟩)
    ∧ (∀ (u : UARTCommunication) (p : SerialPort),
      u.serial_conn = some p → p.is_open = true → p.rxBuf = [] →
      (u.receive_data none).result = .ok ""
      ∧ (u.receive_data none).io = [.serialReadline])
    ∧ (∀ (r : RS485Communication) (p : SerialPort),
      r.serial_conn = some p → p.is_open = true → p.rxBuf = [] →
      (r.receive_data).result = .ok ""
      ∧ (r.receive_data).io = [.serialReadline])
    ∧ (∀ rest : List RecvOutcome,
      CommunicationWorker.run (.value none :: rest) = CommunicationWorker.run rest)
    ∧ (∀ rest : List RecvOutcome,
      CommunicationWorker.run (.value (some "") :: rest)
        = CommunicationWorker.run rest) := by
  refine ⟨?_, ?_, ?_, ?_, ?_⟩
  · intro c b t hb hq
    simp [CANCommunication.receive_data, CANCommunication.is_connected, hb, hq]
  · intro u p hc hop hbuf
    have hread : p.readline = ([], { p with rxBuf := [] }) := by
      simp [SerialPort.readline, hbuf]
    constructor
    · simp [UARTCommunication.receive_data, hc, hop, hread]
      decide
    · simp [UARTCommunication.receive_data, hc, hop, hread]
  · intro r p hc hop hbuf
    have hread : p.readline = ([], { p with rxBuf := [] }) := by
      simp [SerialPort.readline, hbuf]
    constructor
    · simp [RS485Communication.receive_data, hc, hop, hread]
      decide
    · simp [RS485Communication.receive_data, hc, hop, hread]
  · intro rest
    rfl
  · intro rest
    simp [CommunicationWorker.run]

/-- C6 witness: the timeout behaviour on concrete connected transports
with empty buffers, and the loop continuing past a falsy result. -/
theorem c6_witness :
    CANCommunication.receive_data canConnEx 1 = ⟨.ok none, canConnEx, [.canRecv]⟩
    ∧ (UARTCommunication.receive_data uartConnEx none).result = .ok ""
    ∧ (RS485Communication.receive_data rs485ConnEx).result = .ok ""
    ∧ CommunicationWorker.run [.value none, .value (some "hello")]
      = CommunicationWorker.run [.value (some "hello")] := by
  obtain ⟨h1, h2, h3, h4, h5⟩ := c6_timeout_yields_empty
  exact ⟨h1 canConnEx ⟨[], []⟩ 1 rfl rfl,
    (h2 uartConnEx ⟨true, [], []⟩ rfl rfl rfl).1,
    (h3 rs485ConnEx ⟨true, [], []⟩ rfl rfl rfl).1,
    h4 [.value (some "hello")]⟩

/-- A loopback endpoint: whatever was written to the port becomes
available to read back. -/
def uartLoopback (u : UARTCommunication) : UARTCommunication :=
  match u.serial_conn with
  | some c =>
    { u with serial_conn := some { c with rxBuf := c.rxBuf ++ c.txBuf, txBuf := [] } }
  | none => u

/-- C9: sending the literal string "PID,1.0,0.1,0.01\n" through a
connected UART transport, looping the written bytes back to the receive
side, and then calling receive yields exactly "PID,1.0,0.1,0.01": the
sent byte sequence with the line terminator trimmed. -/
theorem c9_uart_loopback_roundtrip :
    (UARTCommunication.receive_data
        (uartLoopback
          (UARTCommunication.send_data uartConnEx "PID,1.0,0.1,0.01\n" false).state)
        none).result
      = .ok "PID,1.0,0.1,0.01"
    ∧ (UARTCommunication.send_data uartConnEx "PID,1.0,0.1,0.01\n" false).io
      = [Act.serialWrite (utf8Encode "PID,1.0,0.1,0.01\n")] := by
  decide

/-- Helper: how many data-received events the worker can still emit once
the running flag is down, as a function of its loop position: one if a
receive result is still in flight (not yet emitted), none otherwise. -/
def emitBudget : WorkerPC → Nat
  | .beforeRecv => 1
  | .beforeEmit _ => 1
  | _ => 0

/-- Helper: the budget never exceeds one. -/
lemma emitBudget_le_one (pc : WorkerPC) : emitBudget pc ≤ 1 := by
  cases pc <;> simp [emitBudget]

/-- Helper: `countData` distributes over append. -/
lemma countData_append (l1 l2 : List SysEvent) :
    countData (l1 ++ l2) = countData l1 + countData l2 := by
  simp [countData, List.filter_append]

/-- Helper: unfolding one scheduled action. -/
lemma sysRun_cons (st : SysState) (a : SysAction) (rest : List SysAction) :
    sysRun st (a :: rest) = (sysStep st a).2 ++ sysRun (sysStep st a).1 rest :=
  rfl

/-- Helper: once the running flag is false, the rest of the run emits at
most `emitBudget` of the current position many data events. -/
lemma run_flag_cleared_bound :
    ∀ (acts : List SysAction) (st : SysState), st.running = false →
    countData (sysRun st acts) ≤ emitBudget st.pc := by
  intro acts
  induction acts with
  | nil =>
    intro st h
    simp [sysRun, countData]
  | cons a rest ih =>
    rintro ⟨pc, running, stopDone⟩ h
    have hrun : running = false := h
    subst hrun
    rw [sysRun_cons, countData_append]
    cases a with
    | workerCheck =>
      cases pc with
      | atTop =>
        have h2 := ih ⟨WorkerPC.stopped, false, stopDone⟩ rfl
        simpa [countData, emitBudget, sysStep] using h2
      | beforeRecv =>
        have h2 := ih ⟨WorkerPC.beforeRecv, false, stopDone⟩ rfl
        simpa [countData, emitBudget, sysStep] using h2
      | beforeEmit d =>
        have h2 := ih ⟨WorkerPC.beforeEmit d, false, stopDone⟩ rfl
        simpa [countData, emitBudget, sysStep] using h2
      | beforeSleep =>
        have h2 := ih ⟨WorkerPC.beforeSleep, false, stopDone⟩ rfl
        simpa [countData, emitBudget, sysStep] using h2
      | stopped =>
        have h2 := ih ⟨WorkerPC.stopped, false, stopDone⟩ rfl
        simpa [countData, emitBudget, sysStep] using h2
    | workerRecv d =>
      cases pc with
      | atTop =>
        have h2 := ih ⟨WorkerPC.atTop, false, stopDone⟩ rfl
        simpa [countData, emitBudget, sysStep] using h2
      | beforeRecv =>
        have h2 := ih ⟨WorkerPC.beforeEmit d, false, stopDone⟩ rfl
        simpa [countData, emitBudget, sysStep] using h2
      | beforeEmit e =>
        have h2 := ih ⟨WorkerPC.beforeEmit e, false, stopDone⟩ rfl
        simpa [countData, emitBudget, sysStep] using h2
      | beforeSleep =>
        have h2 := ih ⟨WorkerPC.beforeSleep, false, stopDone⟩ rfl
        simpa [countData, emitBudget, sysStep] using h2
      | stopped =>
        have h2 := ih ⟨WorkerPC.stopped, false, stopDone⟩ rfl
        simpa [countData, emitBudget, sysStep] using h2
    | workerEmit =>
      cases pc with
      | atTop =>
        have h2 := ih ⟨WorkerPC.atTop, false, stopDone⟩ rfl
        simpa [countData, emitBudget, sysStep] using h2
      | beforeRecv =>
        have h2 := ih ⟨WorkerPC.beforeRecv, false, stopDone⟩ rfl
        simpa [countData, emitBudget, sysStep] using h2
      | beforeEmit d =>
        have h2 : countData (sysRun ⟨WorkerPC.beforeSleep, false, stopDone⟩ rest) = 0 := by
          simpa [emitBudget] using ih ⟨WorkerPC.beforeSleep, false, stopDone⟩ rfl
        have hev : countData
            (sysStep ⟨WorkerPC.beforeEmit d, false, stopDone⟩ SysAction.workerEmit).2 ≤ 1 := by
          cases d with
          | none => simp [sysStep, countData]
          | some s => by_cases hs : s = "" <;> simp [sysStep, hs, countData]
        have hst : (sysStep ⟨WorkerPC.beforeEmit d, false, stopDone⟩
            SysAction.workerEmit).1 = ⟨WorkerPC.beforeSleep, false, stopDone⟩ := by
          simp [sysStep]
        rw [hst, h2]
        simpa [emitBudget] using hev
      | beforeSleep =>
        have h2 := ih ⟨WorkerPC.beforeSleep, false, stopDone⟩ rfl
        simpa [countData, emitBudget, sysStep] using h2
      | stopped =>
        have h2 := ih ⟨WorkerPC.stopped, false, stopDone⟩ rfl
        simpa [countData, emitBudget, sysStep] using h2
    | workerSleep =>
      cases pc with
      | atTop =>
        have h2 := ih ⟨WorkerPC.atTop, false, stopDone⟩ rfl
        simpa [countData, emitBudget, sysStep] using h2
      | beforeRecv =>
        have h2 := ih ⟨WorkerPC.beforeRecv, false, stopDone⟩ rfl
        simpa [countData, emitBudget, sysStep] using h2
      | beforeEmit d =>
        have h2 := ih ⟨WorkerPC.beforeEmit d, false, stopDone⟩ rfl
        simpa [countData, emitBudget, sysStep] using h2
      | beforeSleep =>
        have h2 := ih ⟨WorkerPC.atTop, false, stopDone⟩ rfl
        simpa [countData, emitBudget, sysStep] using h2
      | stopped =>
        have h2 := ih ⟨WorkerPC.stopped, false, stopDone⟩ rfl
        simpa [countData, emitBudget, sysStep] using h2
    | uiStop =>
      cases stopDone with
      | true =>
        have h2 := ih ⟨pc, false, true⟩ rfl
        simpa [countData, emitBudget, sysStep] using h2
      | false =>
        have h2 := ih ⟨pc, false, true⟩ rfl
        simpa [countData, emitBudget, sysStep] using h2

/-- Helper: after the loop has exited (pc `stopped`, stop already done),
no schedule produces any further event. -/
lemma sysRun_stopped :
    ∀ acts : List SysAction,
    sysRun ⟨WorkerPC.stopped, false, true⟩ acts = [] := by
  intro acts
  induction acts with
  | nil => rfl
  | cons a rest ih =>
    rw [sysRun_cons]
    have hstep : sysStep ⟨WorkerPC.stopped, false, true⟩ a
        = (⟨WorkerPC.stopped, false, true⟩, []) := by
      cases a <;> simp [sysStep]
    rw [hstep]
    simpa using ih

/-- Helper: events that cannot be `stopReturned` are transparent to
`eventsAfterStop`. -/
lemma eventsAfterStop_append_skip :
    ∀ (evs l : List SysEvent), SysEvent.stopReturned ∉ evs →
    eventsAfterStop (evs ++ l) = eventsAfterStop l := by
  intro evs
  induction evs with
  | nil => intro l _; rfl
  | cons x xs ih =>
    intro l h
    unfold eventsAfterStop at ih ⊢
    rw [List.cons_append, List.dropWhile_cons]
    have hx : x ≠ SysEvent.stopReturned := by
      intro he
      exact h (by simp [he])
    rw [if_pos (by simp [hx])]
    exact ih l (fun hm => h (by simp [hm]))

/-- Helper: everything after the `stopReturned` event. -/
lemma eventsAfterStop_stop_cons (l : List SysEvent) :
    eventsAfterStop (SysEvent.stopReturned :: l) = l := by
  unfold eventsAfterStop
  rw [List.dropWhile_cons]
  rw [if_neg (by simp)]
  rfl

/-- Helper: from any state where `stop()` has not yet run, at most one
data-received event can occur after `stop()` returns. -/
lemma run_before_stop_bound :
    ∀ (acts : List SysAction) (st : SysState), st.stopDone = false →
    countData (eventsAfterStop (sysRun st acts)) ≤ 1 := by
  intro acts
  induction acts with
  | nil =>
    intro st h
    simp [sysRun, eventsAfterStop, countData]
  | cons a rest ih =>
    rintro ⟨pc, running, stopDone⟩ h
    have hsd : stopDone = false := h
    subst hsd
    clear h
    rw [sysRun_cons]
    cases a with
    | uiStop =>
      have hstep : sysStep ⟨pc, running, false⟩ SysAction.uiStop
          = (⟨pc, false, true⟩, [SysEvent.stopReturned]) := by
        simp [sysStep]
      rw [hstep, List.singleton_append, eventsAfterStop_stop_cons]
      exact le_trans (run_flag_cleared_bound rest ⟨pc, false, true⟩ rfl)
        (emitBudget_le_one pc)
    | workerCheck =>
      cases pc with
      | atTop =>
        cases running with
        | true =>
          have hstep : sysStep ⟨WorkerPC.atTop, true, false⟩ SysAction.workerCheck
              = (⟨WorkerPC.beforeRecv, true, false⟩, []) := by simp [sysStep]
          rw [hstep, List.nil_append]
          exact ih ⟨WorkerPC.beforeRecv, true, false⟩ rfl
        | false =>
          have hstep : sysStep ⟨WorkerPC.atTop, false, false⟩ SysAction.workerCheck
              = (⟨WorkerPC.stopped, false, false⟩, [SysEvent.loopExited]) := by
            simp [sysStep]
          rw [hstep, eventsAfterStop_append_skip [SysEvent.loopExited] _ (by simp)]
          exact ih ⟨WorkerPC.stopped, false, false⟩ rfl
      | beforeRecv =>
        have hstep : sysStep ⟨WorkerPC.beforeRecv, running, false⟩ SysAction.workerCheck
            = (⟨WorkerPC.beforeRecv, running, false⟩, []) := by simp [sysStep]
        rw [hstep, List.nil_append]
        exact ih ⟨WorkerPC.beforeRecv, running, false⟩ rfl
      | beforeEmit d =>
        have hstep : sysStep ⟨WorkerPC.beforeEmit d, running, false⟩ SysAction.workerCheck
            = (⟨WorkerPC.beforeEmit d, running, false⟩, []) := by simp [sysStep]
        rw [hstep, List.nil_append]
        exact ih ⟨WorkerPC.beforeEmit d, running, false⟩ rfl
      | beforeSleep =>
        have hstep : sysStep ⟨WorkerPC.beforeSleep, running, false⟩ SysAction.workerCheck
            = (⟨WorkerPC.beforeSleep, running, false⟩, []) := by simp [sysStep]
        rw [hstep, List.nil_append]
        exact ih ⟨WorkerPC.beforeSleep, running, false⟩ rfl
      | stopped =>
        have hstep : sysStep ⟨WorkerPC.stopped, running, false⟩ SysAction.workerCheck
            = (⟨WorkerPC.stopped, running, false⟩, []) := by simp [sysStep]
        rw [hstep, List.nil_append]
        exact ih ⟨WorkerPC.stopped, running, false⟩ rfl
    | workerRecv d =>
      cases pc with
      | atTop =>
        have hstep : sysStep ⟨WorkerPC.atTop, running, false⟩ (SysAction.workerRecv d)
            = (⟨WorkerPC.atTop, running, false⟩, []) := by simp [sysStep]
        rw [hstep, List.nil_append]
        exact ih ⟨WorkerPC.atTop, running, false⟩ rfl
      | beforeRecv =>
        have hstep : sysStep ⟨WorkerPC.beforeRecv, running, false⟩ (SysAction.workerRecv d)
            = (⟨WorkerPC.beforeEmit d, running, false⟩, []) := by simp [sysStep]
        rw [hstep, List.nil_append]
        exact ih ⟨WorkerPC.beforeEmit d, running, false⟩ rfl
      | beforeEmit e =>
        have hstep : sysStep ⟨WorkerPC.beforeEmit e, running, false⟩ (SysAction.workerRecv d)
            = (⟨WorkerPC.beforeEmit e, running, false⟩, []) := by simp [sysStep]
        rw [hstep, List.nil_append]
        exact ih ⟨WorkerPC.beforeEmit e, running, false⟩ rfl
      | beforeSleep =>
        have hstep : sysStep ⟨WorkerPC.beforeSleep, running, false⟩ (SysAction.workerRecv d)
            = (⟨WorkerPC.beforeSleep, running, false⟩, []) := by simp [sysStep]
        rw [hstep, List.nil_append]
        exact ih ⟨WorkerPC.beforeSleep, running, false⟩ rfl
      | stopped =>
        have hstep : sysStep ⟨WorkerPC.stopped, running, false⟩ (SysAction.workerRecv d)
            = (⟨WorkerPC.stopped, running, false⟩, []) := by simp [sysStep]
        rw [hstep, List.nil_append]
        exact ih ⟨WorkerPC.stopped, running, false⟩ rfl
    | workerEmit =>
      cases pc with
      | atTop =>
        have hstep : sysStep ⟨WorkerPC.atTop, running, false⟩ SysAction.workerEmit
            = (⟨WorkerPC.atTop, running, false⟩, []) := by simp [sysStep]
        rw [hstep, List.nil_append]
        exact ih ⟨WorkerPC.atTop, running, false⟩ rfl
      | beforeRecv =>
        have hstep : sysStep ⟨WorkerPC.beforeRecv, running, false⟩ SysAction.workerEmit
            = (⟨WorkerPC.beforeRecv, running, false⟩, []) := by simp [sysStep]
        rw [hstep, List.nil_append]
        exact ih ⟨WorkerPC.beforeRecv, running, false⟩ rfl
      | beforeEmit d =>
        have hstep : sysStep ⟨WorkerPC.beforeEmit d, running, false⟩ SysAction.workerEmit
            = (⟨WorkerPC.beforeSleep, running, false⟩,
                match d with
                | some s => if s = "" then [] else [SysEvent.dataReceived s]
                | none => []) := by
          cases d with
          | none => simp [sysStep]
          | some s => simp [sysStep]
        rw [hstep]
        have hne : SysEvent.stopReturned ∉ (match d with
            | some s => if s = "" then [] else [SysEvent.dataReceived s]
            | none => ([] : List SysEvent)) := by
          cases d with
          | none => simp
          | some s => by_cases hs : s = "" <;> simp [hs]
        rw [eventsAfterStop_append_skip _ _ hne]
        exact ih ⟨WorkerPC.beforeSleep, running, false⟩ rfl
      | beforeSleep =>
        have hstep : sysStep ⟨WorkerPC.beforeSleep, running, false⟩ SysAction.workerEmit
            = (⟨WorkerPC.beforeSleep, running, false⟩, []) := by simp [sysStep]
        rw [hstep, List.nil_append]
        exact ih ⟨WorkerPC.beforeSleep, running, false⟩ rfl
      | stopped =>
        have hstep : sysStep ⟨WorkerPC.stopped, running, false⟩ SysAction.workerEmit
            = (⟨WorkerPC.stopped, running, false⟩, []) := by simp [sysStep]
        rw [hstep, List.nil_append]
        exact ih ⟨WorkerPC.stopped, running, false⟩ rfl
    | workerSleep =>
      cases pc with
      | atTop =>
        have hstep : sysStep ⟨WorkerPC.atTop, running, false⟩ SysAction.workerSleep
            = (⟨WorkerPC.atTop, running, false⟩, []) := by simp [sysStep]
        rw [hstep, List.nil_append]
        exact ih ⟨WorkerPC.atTop, running, false⟩ rfl
      | beforeRecv =>
        have hstep : sysStep ⟨WorkerPC.beforeRecv, running, false⟩ SysAction.workerSleep
            = (⟨WorkerPC.beforeRecv, running, false⟩, []) := by simp [sysStep]
        rw [hstep, List.nil_append]
        exact ih ⟨WorkerPC.beforeRecv, running, false⟩ rfl
      | beforeEmit d =>
        have hstep : sysStep ⟨WorkerPC.beforeEmit d, running, false⟩ SysAction.workerSleep
            = (⟨WorkerPC.beforeEmit d, running, false⟩, []) := by simp [sysStep]
        rw [hstep, List.nil_append]
        exact ih ⟨WorkerPC.beforeEmit d, running, false⟩ rfl
      | beforeSleep =>
        have hstep : sysStep ⟨WorkerPC.beforeSleep, running, false⟩ SysAction.workerSleep
            = (⟨WorkerPC.atTop, running, false⟩, []) := by simp [sysStep]
        rw [hstep, List.nil_append]
        exact ih ⟨WorkerPC.atTop, running, false⟩ rfl
      | stopped =>
        have hstep : sysStep ⟨WorkerPC.stopped, running, false⟩ SysAction.workerSleep
            = (⟨WorkerPC.stopped, running, false⟩, []) := by simp [sysStep]
        rw [hstep, List.nil_append]
        exact ih ⟨WorkerPC.stopped, running, false⟩ rfl

/-- C7 counterexample: an interleaving in which the worker passes its
flag check, `stop()` then runs and returns, and the in-flight receive
completes with data: the data-received event fires strictly after
`stop()` has returned, so "no data-received event is emitted after
stop() has returned" is false. -/
theorem c7_counterexample :
    sysRun workerInit
        [.workerCheck, .uiStop, .workerRecv (some "X"), .workerEmit]
      = [SysEvent.stopReturned, SysEvent.dataReceived "X"]
    ∧ countData (eventsAfterStop (sysRun workerInit
        [.workerCheck, .uiStop, .workerRecv (some "X"), .workerEmit])) = 1 := by
  decide

/-- C7 amended: `stop()` only clears the running flag, and the worker
checks the flag at the top of each iteration, so after `stop()` returns
at most the one in-flight iteration completes: in every interleaving at
most one data-received event fires after `stop()` has returned, and once
the worker has observed the cleared flag and exited its loop no further
event of any kind fires. -/
theorem c7_amended_stop_bound :
    (∀ acts : List SysAction,
      countData (eventsAfterStop (sysRun workerInit acts)) ≤ 1)
    ∧ (∀ acts : List SysAction,
      sysRun ⟨WorkerPC.stopped, false, true⟩ acts = []) := by
  constructor
  · intro acts
    exact run_before_stop_bound acts workerInit rfl
  · exact sysRun_stopped

/-- An example `MainWindow` state with an active connection and a running
worker thread. -/
def mainWindowEx : MainWindowState :=
  { comm_instance := some (.uart uartConnEx), workerActive := true, log := [] }

/-- C8: when a receive call inside the worker loop raises, the worker
emits exactly one error event and terminates the loop without consuming
further receive outcomes; and `handle_comm_error` then performs a full
disconnect: it stops the worker, quits and joins its thread, disconnects
the transport, and clears the active references. -/
theorem c8_receive_error_failstop :
    (∀ (m : String) (rest : List RecvOutcome),
      CommunicationWorker.run (.exn m :: rest)
        = [UiEvent.errorOccurred ("Data reception error: " ++ m)])
    ∧ (∀ (w : MainWindowState) (msg : String),
      w.workerActive = true → w.comm_instance.isSome = true →
      (MainWindow.handle_comm_error w msg).2
        = [SessionAct.workerStop, SessionAct.threadQuitWait,
            SessionAct.transportDisconnect]
      ∧ (MainWindow.handle_comm_error w msg).1.comm_instance = none
      ∧ (MainWindow.handle_comm_error w msg).1.workerActive = false) := by
  constructor
  · intro m rest
    rfl
  · intro w msg hw hc
    unfold MainWindow.handle_comm_error MainWindow.disconnect_device
    cases hci : w.comm_instance with
    | none => rw [hci] at hc; simp at hc
    | some ci => simp [hw, hci]

/-- C8 witness: a concrete receive exception inside the loop, and the
error handler run on a concrete connected state with an active worker. -/
theorem c8_witness :
    CommunicationWorker.run [.exn "boom", .value (some "late")]
      = [UiEvent.errorOccurred "Data reception error: boom"]
    ∧ (MainWindow.handle_comm_error mainWindowEx "boom").2
      = [SessionAct.workerStop, SessionAct.threadQuitWait,
          SessionAct.transportDisconnect]
    ∧ (MainWindow.handle_comm_error mainWindowEx "boom").1.comm_instance = none
    ∧ (MainWindow.handle_comm_error mainWindowEx "boom").1.workerActive = false := by
  obtain ⟨h1, h2⟩ := c8_receive_error_failstop
  exact ⟨h1 "boom" [.value (some "late")],
    h2 mainWindowEx "boom" (by decide) (by decide)⟩

/-- C10: on the I2C transport, when `connect()` opens the SMBus but the
device-presence probe fails, the raised `ConnectionError` leaves the bus
handle stored in the object; every subsequent `connect()` then returns
immediately (no error, no probe, no I/O) while `is_connected()` stays
false, so the transport cannot become connected again until
`disconnect()` clears the handle — after which a successful connect works
again. -/
theorem c10_i2c_probe_failure_wedges : ∀ (b a : Int) (o : SmbusOpenOutcome) (p : Bool),
    ((I2CCommunication.init b a).connect .opened false).result
      = .error (.connectionError "Failed to find device")
    ∧ ((I2CCommunication.init b a).connect .opened false).state.bus = some ⟨b⟩
    ∧ ((I2CCommunication.init b a).connect .opened false).state.is_connected = false
    ∧ (((I2CCommunication.init b a).connect .opened false).state.connect o p)
      = ⟨.ok (), ((I2CCommunication.init b a).connect .opened false).state, []⟩
    ∧ ((((I2CCommunication.init b a).connect .opened false).state.connect o p)).state.is_connected
      = false
    ∧ ((((I2CCommunication.init b a).connect .opened false).state).disconnect).1.bus = none
    ∧ (((((I2CCommunication.init b a).connect .opened false).state).disconnect).1.connect
        .opened true).result = .ok ()
    ∧ (((((I2CCommunication.init b a).connect .opened false).state).disconnect).1.connect
        .opened true).state.is_connected = true := by
  intro b a o p
  have hwedge := i2cConnectHolding
    (((I2CCommunication.init b a).connect .opened false).state) o p rfl
  refine ⟨rfl, rfl, rfl, hwedge, ?_, rfl, rfl, rfl⟩
  rw [hwedge]
  rfl
